import Mathlib

/-!
Shallow embedding of the `ctfcli` core (`src/ctfcli/core/{flag,image,test}.py`)
and verification of the frozen claims about it.

External effects (the docker engine, the network, the filesystem, the process
executor) are modelled as explicit oracle records passed to the embedded
operations; mutable object state is threaded explicitly.
-/

namespace Ctfcli

/-! ### Flag (`flag.py`) -/

/-- U+00B5 MICRO SIGN: lowercase, with uppercase mapping U+039C. -/
def microSign : Char := Char.ofNat 181

/-- U+039C GREEK CAPITAL LETTER MU. -/
def capitalMu : Char := Char.ofNat 924

/-- U+03BC GREEK SMALL LETTER MU. -/
def smallMu : Char := Char.ofNat 956

/-- U+00DF LATIN SMALL LETTER SHARP S: uppercases to the two letters SS. -/
def sharpS : Char := Char.ofNat 223

/-- U+1E9E LATIN CAPITAL LETTER SHARP S. -/
def capitalSharpS : Char := Char.ofNat 7838

/-- The `str.lower` method of Python on one character, as a full case
mapping (a character may map to several).  The Unicode table is rendered
exactly on the ASCII range and on the non-ASCII letters this development
uses (U+039C to U+03BC, U+1E9E to U+00DF; U+00B5, U+03BC and U+00DF are
lowercase and fixed); characters outside the rendered table are left
fixed. -/
def lowerChar (c : Char) : List Char :=
  if 65 ≤ c.toNat ∧ c.toNat ≤ 90 then [Char.ofNat (c.toNat + 32)]
  else if c = capitalMu then [smallMu]
  else if c = capitalSharpS then [sharpS]
  else [c]

/-- The `str.upper` method of Python on one character, as a full case
mapping; the rendered table covers ASCII and the non-ASCII letters this
development uses (U+00B5 and U+03BC to U+039C, and U+00DF to the two-letter
string SS — a genuine expansion); characters outside the rendered table are
left fixed. -/
def upperChar (c : Char) : List Char :=
  if 97 ≤ c.toNat ∧ c.toNat ≤ 122 then [Char.ofNat (c.toNat - 32)]
  else if c = microSign then [capitalMu]
  else if c = smallMu then [capitalMu]
  else if c = sharpS then [Char.ofNat 83, Char.ofNat 83]
  else [c]

/-- Python strings are modelled as `List Char`; `pyLower` is `str.lower`. -/
def pyLower (s : List Char) : List Char := s.flatMap lowerChar

/-- The `str.upper` method of Python on a string. -/
def pyUpper (s : List Char) : List Char := s.flatMap upperChar

/-- `FlagType` enum from `flag.py`. -/
inductive FlagType
  | STATIC
  | REGEX
deriving DecidableEq, Repr

/-- The `Flag` object: fields set by `Flag.__init__`. -/
structure Flag where
  content : List Char
  type : FlagType
  case_sensitive : Bool
deriving DecidableEq, Repr

/-- `Flag.__init__`: stores `content` lowered when not case-sensitive.
The compiled regex (`self._regex`) is not stored: regex matching is supplied
to `Flag.check` as an oracle, applied to the stored (possibly lowered) content. -/
def Flag.init (content : List Char) (type : FlagType) (case_sensitive : Bool) : Flag :=
  { content := if case_sensitive then content else pyLower content,
    type := type, case_sensitive := case_sensitive }

/-- `Flag.check`: lowers the value when not case-sensitive, then compares
with the stored content (STATIC) or matches the regex (REGEX, via the
`regexMatch` oracle standing for `self._regex.match`). -/
def Flag.check (regexMatch : List Char → List Char → Bool) (f : Flag)
    (value : List Char) : Bool :=
  let v := if f.case_sensitive then value else pyLower value
  match f.type with
  | FlagType.STATIC => f.content == v
  | FlagType.REGEX => regexMatch f.content v

theorem toNat_ofNat_valid (n : Nat) (h : n.isValidChar) : (Char.ofNat n).toNat = n := by
  simp [Char.ofNat, h, Char.ofNatAux, Char.toNat, UInt32.toNat, BitVec.toNat_ofNatLt]

theorem char_ne_of_toNat_ne {a b : Char} (h : a.toNat ≠ b.toNat) : a ≠ b :=
  fun he => h (he ▸ rfl)

theorem lowerChar_fixed {c : Char} (h : ¬(65 ≤ c.toNat ∧ c.toNat ≤ 90))
    (h2 : c ≠ capitalMu) (h3 : c ≠ capitalSharpS) : lowerChar c = [c] := by
  unfold lowerChar
  rw [if_neg h, if_neg h2, if_neg h3]

theorem lowerChar_upperRange {c : Char} (h : 65 ≤ c.toNat ∧ c.toNat ≤ 90) :
    lowerChar c = [Char.ofNat (c.toNat + 32)] := by
  unfold lowerChar
  rw [if_pos h]

theorem lowerChar_lowered (c : Char) :
    (lowerChar c).flatMap lowerChar = lowerChar c := by
  by_cases h1 : 65 ≤ c.toNat ∧ c.toNat ≤ 90
  · have ht : (Char.ofNat (c.toNat + 32)).toNat = c.toNat + 32 :=
      toNat_ofNat_valid _ (Or.inl (by omega))
    have hMu : capitalMu.toNat = 924 := rfl
    have hSS : capitalSharpS.toNat = 7838 := rfl
    have hfix : lowerChar (Char.ofNat (c.toNat + 32)) = [Char.ofNat (c.toNat + 32)] :=
      lowerChar_fixed (by omega)
        (char_ne_of_toNat_ne (by omega)) (char_ne_of_toNat_ne (by omega))
    rw [lowerChar_upperRange h1, List.flatMap_cons, List.flatMap_nil,
      List.append_nil, hfix]
  · by_cases h2 : c = capitalMu
    · subst h2
      decide
    · by_cases h3 : c = capitalSharpS
      · subst h3
        decide
      · have hfix := lowerChar_fixed h1 h2 h3
        rw [hfix, List.flatMap_cons, List.flatMap_nil, List.append_nil, hfix]

theorem pyLower_idem (s : List Char) : pyLower (pyLower s) = pyLower s := by
  unfold pyLower
  induction s with
  | nil => rfl
  | cons c cs ih =>
    rw [List.flatMap_cons, List.flatMap_append, lowerChar_lowered, ih]

/-- C10 counterexample: `check` of a STATIC case-insensitive flag is not
invariant under uppercasing its argument — for content and value the micro
sign U+00B5, `check` accepts the value but rejects its uppercasing, because
U+00B5 uppercases to greek capital mu U+039C whose lowercase is greek small
mu U+03BC, a different character. -/
theorem C10_counterexample :
    ¬(Flag.check (fun _ _ => false) (Flag.init [microSign] FlagType.STATIC false)
        [microSign] =
      Flag.check (fun _ _ => false) (Flag.init [microSign] FlagType.STATIC false)
        (pyUpper [microSign])) := by
  decide

/-- C10 amended: a STATIC case-insensitive flag accepts exactly the strings
whose lowercasing equals the lowercasing of the content, and `check` is
invariant under lowercasing its argument; it is NOT in general invariant
under uppercasing: with content and value U+00B5 the check accepts the value
(it is true) but rejects the uppercased value (it is false). -/
theorem C10_static_case_insensitive (rm : List Char → List Char → Bool)
    (c v : List Char) :
    (Flag.check rm (Flag.init c FlagType.STATIC false) v = true ↔
      pyLower v = pyLower c) ∧
    Flag.check rm (Flag.init c FlagType.STATIC false) v =
      Flag.check rm (Flag.init c FlagType.STATIC false) (pyLower v) ∧
    Flag.check rm (Flag.init [microSign] FlagType.STATIC false) [microSign] = true ∧
    Flag.check rm (Flag.init [microSign] FlagType.STATIC false)
      (pyUpper [microSign]) = false := by
  have h1 : Flag.check rm (Flag.init c FlagType.STATIC false) v =
      (pyLower c == pyLower v) := rfl
  have h2 : Flag.check rm (Flag.init c FlagType.STATIC false) (pyLower v) =
      (pyLower c == pyLower (pyLower v)) := rfl
  rw [h1, h2, pyLower_idem]
  exact ⟨⟨fun h => (beq_iff_eq.mp h).symm, fun h => beq_iff_eq.mpr h.symm⟩,
    rfl, rfl, rfl⟩

/-! ### Image (`image.py`)

Each docker invocation is mediated by an `Engine` oracle.  Calls made with
`subprocess.call` report only an exit code and never raise; calls made with
`check=True` / `check_call` / `check_output` raise `CalledProcessError` on a
non-zero exit, which the embedding surfaces as `Except.error`. -/

/-- Python exceptions that the embedded code can raise. -/
inductive PyError
  | fileNotFoundError (msg : String)
  | valueError (msg : String)
  | isADirectoryError (msg : String)
  | timeoutExpired (msg : String)
  | calledProcessError
  | typeError (msg : String)
deriving DecidableEq, Repr

/-- Mutable fields of an `Image` object. -/
structure ImageState where
  name : String
  basename : String
  built : Bool
  build_path : Option String
  container : Option String
  ip : Option String
deriving DecidableEq, Repr

/-- The docker engine as a deterministic oracle.  `inspectRunning` and
`inspectIP` stand for the checked `docker inspect` calls on a container id;
the exit codes stand for the `subprocess.call` invocations.  `inspectPorts`
is the checked `docker inspect` of `.Config.ExposedPorts` on the image name:
docker renders that JSON object as keys of the form `number/protocol`, which
the oracle delivers already split into `(number, protocol)` pairs, an empty
list standing for a `null` or empty object (both falsy in Python). -/
structure Engine where
  inspectRunning : String → Bool
  inspectIP : String → String
  buildExit : Int
  runStart : List (String × String) → Except Unit String
  stopOk : Bool
  pullExit : Int
  tagExit : Int
  pushExit : Int
  saveExit : Int
  tmpName : String
  inspectPorts : Except Unit (List (Nat × String))

/-- `Image.__init__`: derives the basename and assumes the image built
unless a (non-empty) build path was supplied. -/
def Image.init (name : String) (build_path : Option String) : ImageState :=
  let basename :=
    if name.contains '/' || name.contains ':' then
      ((((name.splitOn ":").headD name).splitOn "/").getLast?).getD name
    else name
  { name := name, basename := basename, built := build_path.isNone,
    build_path := build_path, container := none, ip := none }

/-- The `running` property: fast false when no container is recorded;
otherwise a checked `docker inspect`.  When the engine reports the container
not running the code warns and clears `self.container` — and only
`self.container`; the cached `self._ip` is left in place.  Returns
(value, state after, warning emitted). -/
def Image.runningProp (eng : Engine) (s : ImageState) : Bool × ImageState × Bool :=
  match s.container with
  | none => (false, s, false)
  | some c =>
    if eng.inspectRunning c then (true, s, false)
    else (false, { s with container := none }, true)

/-- The `ip` property: absent when not running, otherwise resolved via a
checked `docker inspect` on first access and cached in `self._ip`. -/
def Image.ipProp (eng : Engine) (s : ImageState) : Option String × ImageState × Bool :=
  let out := Image.runningProp eng s
  if out.1 = false then (none, out.2.1, out.2.2)
  else
    match out.2.1.ip with
    | some a => (some a, out.2.1, out.2.2)
    | none =>
      let a := eng.inspectIP (out.2.1.container.getD "")
      (some a, { out.2.1 with ip := some a }, out.2.2)

/-- `Image.build`: `subprocess.call` of `docker build`; on non-zero exit
returns `None` leaving `built` unset, otherwise sets `built` and returns
the name. -/
def Image.build (eng : Engine) (s : ImageState) : Option String × ImageState :=
  if eng.buildExit ≠ 0 then (none, s)
  else (some s.name, { s with built := true })

/-- The `if not self.built: self.build()` preamble shared by `run`, `push`,
`export` and `_get_exposed_port_strings`; the return value of the build is
discarded. -/
def ensureBuilt (eng : Engine) (s : ImageState) : ImageState :=
  if s.built then s else (Image.build eng s).2

/-- `Image.run`: ensures built (discarding the build result), returns the
existing container when `running`, otherwise starts a container with a
checked `subprocess.run` (raising `CalledProcessError` on failure) and
records the new id. -/
def Image.run (eng : Engine) (environment : List (String × String))
    (s : ImageState) : Except PyError (Option String) × ImageState × Bool :=
  let s1 := ensureBuilt eng s
  let out := Image.runningProp eng s1
  if out.1 then (.ok out.2.1.container, out.2.1, out.2.2)
  else
    match eng.runStart environment with
    | .error _ => (.error .calledProcessError, out.2.1, out.2.2)
    | .ok cid => (.ok (some cid), { out.2.1 with container := some cid }, out.2.2)

/-- `Image.stop`: no-op when not `running`; otherwise a `check_call` of
`docker stop` (raising `CalledProcessError` on failure) followed by clearing
`self.container` — `self._ip` is again left in place. -/
def Image.stop (eng : Engine) (s : ImageState) :
    Except PyError (Option String) × ImageState × Bool :=
  let out := Image.runningProp eng s
  if out.1 = false then (.ok none, out.2.1, out.2.2)
  else
    if eng.stopOk then
      (.ok out.2.1.container, { out.2.1 with container := none }, out.2.2)
    else (.error .calledProcessError, out.2.1, out.2.2)

/-- `Image.pull`: `subprocess.call` of `docker pull`; absent on failure. -/
def Image.pull (eng : Engine) (s : ImageState) : Option String :=
  if eng.pullExit ≠ 0 then none else some s.name

/-- `Image.push`: ensures built (discarding the result), then `docker tag`
and `docker push` via `subprocess.call`; absent if either exits non-zero. -/
def Image.push (eng : Engine) (location : String) (s : ImageState) :
    Option String × ImageState :=
  let s1 := ensureBuilt eng s
  if eng.tagExit ≠ 0 ∨ eng.pushExit ≠ 0 then (none, s1)
  else (some location, s1)

/-- `Image.export`: ensures built (discarding the result), serializes to a
temporary archive whose name embeds the basename; absent if `docker save`
exits non-zero. -/
def Image.exportImage (eng : Engine) (s : ImageState) : Option String × ImageState :=
  let s1 := ensureBuilt eng s
  let tar := eng.tmpName ++ "_" ++ s1.basename ++ ".docker.tar"
  if eng.saveExit ≠ 0 then (none, s1)
  else (some tar, s1)

/-- `Image._get_exposed_port_strings`: ensures built, then a checked
`docker inspect` whose `CalledProcessError` is caught and turned into
`None`; a falsy ports object (null or empty) also yields `None`. -/
def Image.getExposedPortStrings (eng : Engine) (s : ImageState) :
    Option (List (Nat × String)) × ImageState :=
  let s1 := ensureBuilt eng s
  match eng.inspectPorts with
  | .error _ => (none, s1)
  | .ok data => if data = [] then (none, s1) else (some data, s1)

/-- `Image.ports_by_protocol`: `None` when the raw port list is falsy,
otherwise the numbers of the ports whose protocol matches — possibly the
empty list. -/
def Image.ports_by_protocol (eng : Engine) (protocol : String) (s : ImageState) :
    Option (List Nat) × ImageState :=
  let out := Image.getExposedPortStrings eng s
  match out.1 with
  | none => (none, out.2)
  | some raws => (some ((raws.filter (fun pr => pr.2 == protocol)).map Prod.fst), out.2)

/-! #### `wait_for_exposed_ports`

Time is modelled discretely: `net addr t port` tells whether a connection
attempt to `(addr, port)` made at tick `t` succeeds, and every attempt
advances the clock by one tick (each failed attempt blocks for the ≈1s
socket timeout).  The deadline test `default_timer() - start_time < timeout`
is made before every attempt, exactly as in the `while` loop of the source. -/

/-- The inner `while` loop for one port: repeatedly attempt to connect until
success (returning the clock after the successful attempt) or until the
deadline check fails (returning `none`, the `else` / warning path of the loop). -/
def waitOnePort (conn : Nat → Nat → Bool) (timeout port t : Nat) : Option Nat :=
  if t < timeout then
    if conn t port then some (t + 1)
    else waitOnePort conn timeout port (t + 1)
  else none
termination_by timeout - t

/-- The outer `for` loop over the declared ports: the first port whose inner
loop times out warns and aborts the whole wait (result false); the `else` of
the `for` returns true only when every port connected.  Returns
(result, warning emitted). -/
def waitPorts (conn : Nat → Nat → Bool) (timeout : Nat) :
    List Nat → Nat → Bool × Bool
  | [], _ => (true, false)
  | p :: ps, t =>
    match waitOnePort conn timeout p t with
    | some t1 => waitPorts conn timeout ps t1
    | none => (false, true)

/-- Declarative reading of the polling loop: starting at tick `t`, every
listed port accepts a connection in order, each within the deadline. -/
inductive PortsReachable (conn : Nat → Nat → Bool) (timeout : Nat) :
    List Nat → Nat → Prop
  | nil (t : Nat) : PortsReachable conn timeout [] t
  | cons {p : Nat} {ps : List Nat} {t u : Nat} :
      t ≤ u → u < timeout → conn u p = true →
      PortsReachable conn timeout ps (u + 1) →
      PortsReachable conn timeout (p :: ps) t

/-- `Image.wait_for_exposed_ports`: false at once when not `running`;
otherwise iterates over `ports_by_protocol("tcp")` — which raises a
`TypeError` when that call returned `None` — polling each port against the
deadline.  Every attempt targets `self.ip`; with a deterministic engine each
of those property reads yields the same address, cached after the first
attempt.  Returns (result, state after, warning emitted). -/
def Image.wait_for_exposed_ports (eng : Engine) (net : String → Nat → Nat → Bool)
    (timeout : Nat) (s : ImageState) : Except PyError Bool × ImageState × Bool :=
  let out := Image.runningProp eng s
  if out.1 = false then (.ok false, out.2.1, out.2.2)
  else
    let pout := Image.ports_by_protocol eng "tcp" out.2.1
    match pout.1 with
    | none => (.error (.typeError "NoneType object is not iterable"), pout.2, out.2.2)
    | some ports =>
      let addr := pout.2.ip.getD (eng.inspectIP (pout.2.container.getD ""))
      let s2 :=
        if ports ≠ [] ∧ 0 < timeout then { pout.2 with ip := some addr } else pout.2
      let w := waitPorts (net addr) timeout ports 0
      (.ok w.1, s2, out.2.2 || w.2)

theorem waitOnePort_eq (conn : Nat → Nat → Bool) (timeout port t : Nat) :
    waitOnePort conn timeout port t =
      if t < timeout then
        if conn t port then some (t + 1)
        else waitOnePort conn timeout port (t + 1)
      else none := by
  rw [waitOnePort]

theorem waitOnePort_some (conn : Nat → Nat → Bool) (timeout port : Nat) :
    ∀ k t t1, timeout - t ≤ k →
      waitOnePort conn timeout port t = some t1 →
      ∃ u, t ≤ u ∧ u < timeout ∧ conn u port = true ∧ t1 = u + 1 ∧
        ∀ v, t ≤ v → v < u → conn v port = false := by
  intro k
  induction k with
  | zero =>
    intro t t1 hk h
    rw [waitOnePort_eq] at h
    rw [if_neg (by omega)] at h
    exact absurd h (by simp)
  | succ k ih =>
    intro t t1 hk h
    rw [waitOnePort_eq] at h
    by_cases ht : t < timeout
    · rw [if_pos ht] at h
      by_cases hc : conn t port = true
      · rw [if_pos hc] at h
        refine ⟨t, le_refl t, ht, hc, by injection h; omega, ?_⟩
        intro v hv1 hv2
        omega
      · rw [if_neg hc] at h
        obtain ⟨u, hu1, hu2, hu3, hu4, hu5⟩ := ih (t + 1) t1 (by omega) h
        refine ⟨u, by omega, hu2, hu3, hu4, ?_⟩
        intro v hv1 hv2
        by_cases hv : v = t
        · subst hv
          exact Bool.not_eq_true _ |>.mp hc
        · exact hu5 v (by omega) hv2
    · rw [if_neg ht] at h
      exact absurd h (by simp)

theorem waitOnePort_none (conn : Nat → Nat → Bool) (timeout port : Nat) :
    ∀ k t, timeout - t ≤ k →
      waitOnePort conn timeout port t = none →
      ∀ u, t ≤ u → u < timeout → conn u port = false := by
  intro k
  induction k with
  | zero =>
    intro t hk h u hu1 hu2
    omega
  | succ k ih =>
    intro t hk h u hu1 hu2
    rw [waitOnePort_eq] at h
    rw [if_pos (by omega)] at h
    by_cases hc : conn t port = true
    · rw [if_pos hc] at h
      exact absurd h (by simp)
    · rw [if_neg hc] at h
      by_cases hv : u = t
      · subst hv
        exact Bool.not_eq_true _ |>.mp hc
      · exact ih (t + 1) (by omega) h u (by omega) hu2

theorem waitOnePort_isSome (conn : Nat → Nat → Bool) (timeout port : Nat)
    {t u : Nat} (hu1 : t ≤ u) (hu2 : u < timeout) (hc : conn u port = true) :
    ∃ t1, waitOnePort conn timeout port t = some t1 := by
  cases h : waitOnePort conn timeout port t with
  | some t1 => exact ⟨t1, rfl⟩
  | none =>
    have := waitOnePort_none conn timeout port (timeout - t) t (le_refl _) h u hu1 hu2
    rw [hc] at this
    exact absurd this (by simp)

theorem PortsReachable.mono (conn : Nat → Nat → Bool) (timeout : Nat)
    (ps : List Nat) : ∀ t t1, t1 ≤ t →
    PortsReachable conn timeout ps t → PortsReachable conn timeout ps t1 := by
  induction ps with
  | nil =>
    intro t t1 _ _
    exact PortsReachable.nil t1
  | cons p ps ih =>
    intro t t1 hle h
    cases h with
    | cons hu1 hu2 hu3 hrest =>
      exact PortsReachable.cons (by omega) hu2 hu3 hrest

theorem waitPorts_true_iff (conn : Nat → Nat → Bool) (timeout : Nat) :
    ∀ (ps : List Nat) (t : Nat),
      ((waitPorts conn timeout ps t).1 = true ↔ PortsReachable conn timeout ps t) := by
  intro ps
  induction ps with
  | nil =>
    intro t
    exact ⟨fun _ => PortsReachable.nil t, fun _ => rfl⟩
  | cons p ps ih =>
    intro t
    constructor
    · intro h
      unfold waitPorts at h
      cases hw : waitOnePort conn timeout p t with
      | some t1 =>
        rw [hw] at h
        obtain ⟨u, hu1, hu2, hu3, hu4, _⟩ :=
          waitOnePort_some conn timeout p (timeout - t) t t1 (le_refl _) hw
        exact PortsReachable.cons hu1 hu2 hu3 (hu4 ▸ (ih t1).mp h)
      | none =>
        rw [hw] at h
        exact absurd h (by simp)
    · intro h
      cases h with
      | cons hu1 hu2 hu3 hrest =>
        rename_i u
        obtain ⟨t1, hw⟩ := waitOnePort_isSome conn timeout p hu1 hu2 hu3
        obtain ⟨u1, hv1, hv2, hv3, hv4, hv5⟩ :=
          waitOnePort_some conn timeout p (timeout - t) t t1 (le_refl _) hw
        have hule : u1 ≤ u := by
          by_contra hgt
          have := hv5 u hu1 (by omega)
          rw [hu3] at this
          exact absurd this (by simp)
        unfold waitPorts
        rw [hw]
        exact (ih t1).mpr
          (PortsReachable.mono conn timeout ps (u + 1) t1 (by omega) hrest)

theorem waitPorts_warn (conn : Nat → Nat → Bool) (timeout : Nat) :
    ∀ (ps : List Nat) (t : Nat),
      (waitPorts conn timeout ps t).2 = !(waitPorts conn timeout ps t).1 := by
  intro ps
  induction ps with
  | nil =>
    intro t
    rfl
  | cons p ps ih =>
    intro t
    unfold waitPorts
    cases hw : waitOnePort conn timeout p t with
    | some t1 => exact ih t1
    | none => rfl

/-! ### Test (`test.py`)

The filesystem is an oracle classifying each (joined) path as absent, a
plain file, or a directory.  The effects of `Test.run` are recorded as a trace of
events so that the fate of the temporary directory is observable. -/

/-- What the filesystem says about a path: `exists()` is `≠ absent`,
`is_file()` is `= file`. -/
inductive FileKind
  | absent
  | file
  | dir
deriving DecidableEq, Repr

/-- `TestType` enum from `test.py`. -/
inductive TestType
  | SOLUTION
  | STATUS
deriving DecidableEq, Repr

/-- Fields of a constructed `Test` object. -/
structure Test where
  type : TestType
  files : List String
  base_path : String
  script : String
deriving DecidableEq, Repr

/-- `pathlib`-style joining of a base directory and a relative path. -/
def joinPath (a b : String) : String := a ++ "/" ++ b

/-- Message of the `FileNotFoundError` raised by `Test.__init__`. -/
def notFoundMsg (file script : String) : String :=
  "Could not find file \x27" ++ file ++ "\x27 from test \x27" ++ script ++ "\x27"

/-- Message of the `ValueError` raised by `Test.__init__`. -/
def notAFileMsg (file script : String) : String :=
  "\x27" ++ file ++ "\x27 (required by \x27" ++ script ++ "\x27) is not a file."

/-- The validation loop of `Test.__init__` over `files`:
`FileNotFoundError` when a path does not exist under the base,
`ValueError` when it exists but is not a plain file, otherwise the path is
appended to `self.files`. -/
def validateFiles (fs : String → FileKind) (base script : String) :
    List String → Except PyError (List String)
  | [] => .ok []
  | f :: rest =>
    if fs (joinPath base f) = FileKind.absent then
      .error (.fileNotFoundError (notFoundMsg f script))
    else if fs (joinPath base f) ≠ FileKind.file then
      .error (.valueError (notAFileMsg f script))
    else
      match validateFiles fs base script rest with
      | .error e => .error e
      | .ok r => .ok (f :: r)

/-- `Test.__init__`: stores the type, base path (default the current
directory) and script — the script path itself is never checked — and
validates every required file, failing fast on the first offender. -/
def Test.init (fs : String → FileKind) (script : String) (type : TestType)
    (files : List String) (base_path : Option String) : Except PyError Test :=
  match validateFiles fs (base_path.getD ".") script files with
  | .error e => .error e
  | .ok fl => .ok { type := type, files := fl, base_path := base_path.getD ".",
                    script := script }

/-- Result of `subprocess.run` on the copied script. -/
structure Completed where
  returncode : Int
  stdout : String
  stderr : String
deriving DecidableEq, Repr

/-- Observable events of one `Test.run` call. -/
inductive Event
  | mkdtemp
  | copy (path : String)
  | chmod
  | execScript
  | rmtree
deriving DecidableEq, Repr

/-- `shutil.copy2` of a source path into the private directory: raises
`FileNotFoundError` when the source is absent and `IsADirectoryError` when
it is a directory. -/
def copy2 (fs : String → FileKind) (src : String) : Option PyError :=
  match fs src with
  | FileKind.file => none
  | FileKind.absent => some (.fileNotFoundError ("No such file or directory: " ++ src))
  | FileKind.dir => some (.isADirectoryError src)

/-- The copy loop of `Test.run` over `self.files`: copies in order, stopping
at the first copy that raises. -/
def copyFiles (fs : String → FileKind) (base : String) :
    List String → List Event × Option PyError
  | [] => ([], none)
  | f :: rest =>
    match copy2 fs (joinPath base f) with
    | some e => ([], some e)
    | none =>
      let out := copyFiles fs base rest
      (Event.copy f :: out.1, out.2)

/-- The `try` block of `Test.run`: copy the required files, copy the script,
chmod it, then execute it.  `exec` is the process-executor oracle: a
completed process (any exit code), or a raised `TimeoutExpired` or other
error. -/
def tryBody (fs : String → FileKind) (exec : Except PyError Completed)
    (t : Test) : List Event × Except PyError Completed :=
  let cout := copyFiles fs t.base_path t.files
  match cout.2 with
  | some e => (cout.1, .error e)
  | none =>
    match copy2 fs (joinPath t.base_path t.script) with
    | some e => (cout.1, .error e)
    | none =>
      (cout.1 ++ [Event.copy t.script, Event.chmod, Event.execScript], exec)

/-- `Test.run`: create the private directory, run the `try` block, and in
the `finally` remove the directory; a captured error is re-raised after the
cleanup, otherwise the completed process is returned. -/
def Test.run (fs : String → FileKind) (exec : Except PyError Completed)
    (t : Test) : List Event × Except PyError Completed :=
  let bout := tryBody fs exec t
  (Event.mkdtemp :: (bout.1 ++ [Event.rmtree]), bout.2)

/-- Whether the private directory still exists after the recorded events. -/
def dirExistsAfter (events : List Event) : Bool :=
  events.foldl
    (fun b e =>
      match e with
      | Event.mkdtemp => true
      | Event.rmtree => false
      | _ => b)
    false

/-! ### Shared helper lemmas about `Test` -/

theorem run_dir_removed (fs : String → FileKind) (exec : Except PyError Completed)
    (t : Test) : dirExistsAfter (Test.run fs exec t).1 = false := by
  show dirExistsAfter (Event.mkdtemp :: ((tryBody fs exec t).1 ++ [Event.rmtree])) = false
  unfold dirExistsAfter
  rw [List.foldl_cons, List.foldl_append]
  rfl

theorem validateFiles_append_error (fs : String → FileKind) (base script : String)
    (pre tail : List String) (e : PyError)
    (hpre : ∀ f ∈ pre, fs (joinPath base f) = FileKind.file)
    (htail : validateFiles fs base script tail = .error e) :
    validateFiles fs base script (pre ++ tail) = .error e := by
  induction pre with
  | nil => simpa using htail
  | cons f fl ih =>
    have hf := hpre f (List.mem_cons_self f fl)
    have ih2 := ih (fun g hg => hpre g (List.mem_cons_of_mem f hg))
    rw [List.cons_append]
    simp [validateFiles, hf, ih2]

theorem validateFiles_all_file (fs : String → FileKind) (base script : String)
    (files : List String)
    (h : ∀ f ∈ files, fs (joinPath base f) = FileKind.file) :
    validateFiles fs base script files = .ok files := by
  induction files with
  | nil => rfl
  | cons f fl ih =>
    have hf := h f (List.mem_cons_self f fl)
    have ih2 := ih (fun g hg => h g (List.mem_cons_of_mem f hg))
    simp [validateFiles, hf, ih2]

theorem copyFiles_all_file (fs : String → FileKind) (base : String)
    (files : List String)
    (h : ∀ f ∈ files, fs (joinPath base f) = FileKind.file) :
    copyFiles fs base files = (files.map Event.copy, none) := by
  induction files with
  | nil => rfl
  | cons f fl ih =>
    have hf := h f (List.mem_cons_self f fl)
    have ih2 := ih (fun g hg => h g (List.mem_cons_of_mem f hg))
    simp [copyFiles, copy2, hf, ih2]

/-! ### Claim C2 -/

/-- C2: every call to `Test.run` creates its private temporary directory and
that directory no longer exists when `run` exits, on every exit path — for
every filesystem oracle and every executor outcome (normal completion with
any exit code, a raised timeout, or any error raised during the
copy/chmod/exec setup). -/
theorem C2_run_cleanup (fs : String → FileKind) (exec : Except PyError Completed)
    (t : Test) :
    Event.mkdtemp ∈ (Test.run fs exec t).1 ∧
    dirExistsAfter (Test.run fs exec t).1 = false := by
  constructor
  · show Event.mkdtemp ∈ Event.mkdtemp :: ((tryBody fs exec t).1 ++ [Event.rmtree])
    exact List.mem_cons_self _ _
  · exact run_dir_removed fs exec t

/-! ### Claim C7 -/

/-- C7: constructing a `Test` whose required files contain a path that does
not exist under the base (all entries before it valid) raises a
`FileNotFoundError` whose message names that exact path and the script;
a path that exists but is a directory raises a distinct `ValueError`; both
are raised at construction, so no `Test` value is produced. -/
theorem C7_init_validation (fs : String → FileKind) (script base p q : String)
    (ty : TestType) (pre pre1 rest rest1 : List String)
    (hpre : ∀ f ∈ pre, fs (joinPath base f) = FileKind.file)
    (hpre1 : ∀ f ∈ pre1, fs (joinPath base f) = FileKind.file)
    (habs : fs (joinPath base p) = FileKind.absent)
    (hdir : fs (joinPath base q) = FileKind.dir) :
    Test.init fs script ty (pre ++ p :: rest) (some base) =
      .error (.fileNotFoundError (notFoundMsg p script)) ∧
    Test.init fs script ty (pre1 ++ q :: rest1) (some base) =
      .error (.valueError (notAFileMsg q script)) ∧
    PyError.fileNotFoundError (notFoundMsg p script) ≠
      PyError.valueError (notAFileMsg q script) := by
  refine ⟨?_, ?_, fun h => PyError.noConfusion h⟩
  · have hv : validateFiles fs base script (p :: rest) =
        .error (.fileNotFoundError (notFoundMsg p script)) := by
      simp [validateFiles, habs]
    unfold Test.init
    rw [Option.getD_some]
    rw [validateFiles_append_error fs base script pre (p :: rest) _ hpre hv]
  · have hv : validateFiles fs base script (q :: rest1) =
        .error (.valueError (notAFileMsg q script)) := by
      simp [validateFiles, hdir]
    unfold Test.init
    rw [Option.getD_some]
    rw [validateFiles_append_error fs base script pre1 (q :: rest1) _ hpre1 hv]

/-- Filesystem used by the C7 witness. -/
def fsW7 : String → FileKind := fun s =>
  if s = "base/ok" then FileKind.file
  else if s = "base/sub" then FileKind.dir
  else FileKind.absent

theorem C7_witness :
    Test.init fsW7 "solve.sh" TestType.SOLUTION ["ok", "missing"] (some "base") =
      .error (.fileNotFoundError (notFoundMsg "missing" "solve.sh")) ∧
    Test.init fsW7 "solve.sh" TestType.SOLUTION ["ok", "sub"] (some "base") =
      .error (.valueError (notAFileMsg "sub" "solve.sh")) ∧
    PyError.fileNotFoundError (notFoundMsg "missing" "solve.sh") ≠
      PyError.valueError (notAFileMsg "sub" "solve.sh") := by
  have h := C7_init_validation fsW7 "solve.sh" "base" "missing" "sub"
    TestType.SOLUTION ["ok"] ["ok"] [] []
    (by intro f hf; simp at hf; subst hf; rfl)
    (by intro f hf; simp at hf; subst hf; rfl)
    rfl rfl
  exact h

/-! ### Claim C9 -/

/-- C9: construction never inspects the script path — with every required
file a plain file, `Test.init` succeeds for EVERY filesystem, whatever it
says at the script path (absent, a directory, or a file) — and a missing
script surfaces only in `run`, as a `FileNotFoundError` raised by the copy
phase, re-raised after the private directory has been removed. -/
theorem C9_script_unvalidated (fs : String → FileKind) (script : String)
    (ty : TestType) (files : List String) (base : Option String)
    (exec : Except PyError Completed)
    (hfiles : ∀ f ∈ files, fs (joinPath (base.getD ".") f) = FileKind.file) :
    Test.init fs script ty files base =
      .ok { type := ty, files := files, base_path := base.getD ".",
            script := script } ∧
    (fs (joinPath (base.getD ".") script) = FileKind.absent →
      (Test.run fs exec
          { type := ty, files := files, base_path := base.getD ".",
            script := script }).2 =
        .error (.fileNotFoundError
          ("No such file or directory: " ++ joinPath (base.getD ".") script)) ∧
      dirExistsAfter (Test.run fs exec
          { type := ty, files := files, base_path := base.getD ".",
            script := script }).1 = false) := by
  refine ⟨?_, fun hscript => ⟨?_, run_dir_removed _ _ _⟩⟩
  · unfold Test.init
    rw [validateFiles_all_file fs (base.getD ".") script files hfiles]
  · show (tryBody fs exec _).2 = _
    unfold tryBody
    rw [copyFiles_all_file fs (base.getD ".") files hfiles]
    show (match copy2 fs (joinPath (base.getD ".") script) with
      | some e => (files.map Event.copy, Except.error e)
      | none => (files.map Event.copy ++ [Event.copy script, Event.chmod,
          Event.execScript], exec)).2 = _
    unfold copy2
    rw [hscript]

/-- Filesystem used by the C9 witness: one valid required file, absent
script. -/
def fsW9 : String → FileKind := fun s =>
  if s = "./data.txt" then FileKind.file else FileKind.absent

/-- Filesystem for the C9 witness in which the script path is a directory. -/
def fsW9d : String → FileKind := fun s =>
  if s = "./data.txt" then FileKind.file
  else if s = "./solve.sh" then FileKind.dir
  else FileKind.absent

theorem C9_witness :
    Test.init fsW9 "solve.sh" TestType.SOLUTION ["data.txt"] none =
      .ok { type := TestType.SOLUTION, files := ["data.txt"], base_path := ".",
            script := "solve.sh" } ∧
    Test.init fsW9d "solve.sh" TestType.SOLUTION ["data.txt"] none =
      .ok { type := TestType.SOLUTION, files := ["data.txt"], base_path := ".",
            script := "solve.sh" } ∧
    (Test.run fsW9 (.ok { returncode := 0, stdout := "", stderr := "" })
        { type := TestType.SOLUTION, files := ["data.txt"], base_path := ".",
          script := "solve.sh" }).2 =
      .error (.fileNotFoundError
        ("No such file or directory: " ++ joinPath "." "solve.sh")) ∧
    dirExistsAfter (Test.run fsW9
        (.ok { returncode := 0, stdout := "", stderr := "" })
        { type := TestType.SOLUTION, files := ["data.txt"], base_path := ".",
          script := "solve.sh" }).1 = false := by
  have h1 := C9_script_unvalidated fsW9 "solve.sh" TestType.SOLUTION ["data.txt"]
    none (.ok { returncode := 0, stdout := "", stderr := "" })
    (by intro f hf; simp at hf; subst hf; rfl)
  have h2 := C9_script_unvalidated fsW9d "solve.sh" TestType.SOLUTION ["data.txt"]
    none (.ok { returncode := 0, stdout := "", stderr := "" })
    (by intro f hf; simp at hf; subst hf; rfl)
  exact ⟨h1.1, h2.1, (h1.2 rfl).1, (h1.2 rfl).2⟩

/-! ### Shared helper lemmas about `Image` -/

theorem ensureBuilt_container (eng : Engine) (s : ImageState) :
    (ensureBuilt eng s).container = s.container := by
  unfold ensureBuilt Image.build
  by_cases h : s.built = true
  · rw [if_pos h]
  · rw [if_neg h]
    by_cases h2 : eng.buildExit ≠ 0
    · rw [if_pos h2]
    · rw [if_neg h2]

theorem ensureBuilt_ip (eng : Engine) (s : ImageState) :
    (ensureBuilt eng s).ip = s.ip := by
  unfold ensureBuilt Image.build
  by_cases h : s.built = true
  · rw [if_pos h]
  · rw [if_neg h]
    by_cases h2 : eng.buildExit ≠ 0
    · rw [if_pos h2]
    · rw [if_neg h2]

theorem ensureBuilt_idem (eng : Engine) (s : ImageState) :
    ensureBuilt eng (ensureBuilt eng s) = ensureBuilt eng s := by
  by_cases h : s.built = true
  · simp [ensureBuilt, h]
  · by_cases h2 : eng.buildExit = 0
    · simp [ensureBuilt, Image.build, h, h2]
    · simp [ensureBuilt, Image.build, h, h2]

theorem runningProp_alive (eng : Engine) (s : ImageState) (c : String)
    (hc : s.container = some c) (hr : eng.inspectRunning c = true) :
    Image.runningProp eng s = (true, s, false) := by
  unfold Image.runningProp
  rw [hc]
  simp [hr]

theorem runningProp_deadDetected (eng : Engine) (s : ImageState) (c : String)
    (hc : s.container = some c) (hr : eng.inspectRunning c = false) :
    Image.runningProp eng s = (false, { s with container := none }, true) := by
  unfold Image.runningProp
  rw [hc]
  simp [hr]

/-! ### Claim C1 -/

/-- Engine whose container inspection reports not-running. -/
def engDead : Engine :=
  { inspectRunning := fun _ => false, inspectIP := fun _ => "",
    buildExit := 0, runStart := fun _ => .ok "x", stopOk := true,
    pullExit := 0, tagExit := 0, pushExit := 0, saveExit := 0,
    tmpName := "tmp", inspectPorts := .ok [] }

/-- A handle that believes container `c` is alive and has a cached address. -/
def sDead : ImageState :=
  { name := "img", basename := "img", built := true, build_path := none,
    container := some "c", ip := some "10.0.0.2" }

/-- C1 counterexample: when the running-check discovers the container dead it
clears `container`, but the cached `_ip` field is NOT cleared — it still
holds the stale address afterwards, refuting the claim that both fields are
cleared. -/
theorem C1_counterexample :
    (Image.runningProp engDead sDead).1 = false ∧
    (Image.runningProp engDead sDead).2.1.container = none ∧
    (Image.runningProp engDead sDead).2.1.ip = some "10.0.0.2" ∧
    ¬(Image.runningProp engDead sDead).2.1.ip = none :=
  ⟨rfl, rfl, rfl, fun h => Option.noConfusion h⟩

/-- C1 amended: a running-check that finds the container dead clears
`instanceId` (with a warning) but leaves `cachedAddress` in place; every
subsequent read of the address property nonetheless observes absent while no
container is recorded, and a subsequent running-check reads false. `stop`
likewise clears only `instanceId`, leaving `cachedAddress` set. -/
theorem C1_amended (eng eng1 : Engine) (s s1 : ImageState) (c c1 : String)
    (hc : s.container = some c) (hr : eng.inspectRunning c = false)
    (h1c : s1.container = some c1) (h1r : eng1.inspectRunning c1 = true)
    (h1s : eng1.stopOk = true) :
    (Image.runningProp eng s).1 = false ∧
    (Image.runningProp eng s).2.1.container = none ∧
    (Image.runningProp eng s).2.2 = true ∧
    (Image.runningProp eng s).2.1.ip = s.ip ∧
    (Image.ipProp eng (Image.runningProp eng s).2.1).1 = none ∧
    (Image.runningProp eng (Image.runningProp eng s).2.1).1 = false ∧
    (Image.stop eng1 s1).1 = .ok (some c1) ∧
    (Image.stop eng1 s1).2.1.container = none ∧
    (Image.stop eng1 s1).2.1.ip = s1.ip := by
  have h1 := runningProp_deadDetected eng s c hc hr
  have h2 := runningProp_alive eng1 s1 c1 h1c h1r
  rw [h1]
  refine ⟨rfl, rfl, rfl, rfl, rfl, rfl, ?_, ?_, ?_⟩
  · unfold Image.stop
    rw [h2]
    simp [h1s, h1c]
  · unfold Image.stop
    rw [h2]
    simp [h1s]
  · unfold Image.stop
    rw [h2]
    simp [h1s]

/-- Engine for the stop half of the C1 witness. -/
def engAlive : Engine :=
  { inspectRunning := fun _ => true, inspectIP := fun _ => "172.17.0.2",
    buildExit := 0, runStart := fun _ => .ok "x", stopOk := true,
    pullExit := 0, tagExit := 0, pushExit := 0, saveExit := 0,
    tmpName := "tmp", inspectPorts := .ok [] }

/-- A running handle with a cached address, for the stop half. -/
def sAlive : ImageState :=
  { name := "img", basename := "img", built := true, build_path := none,
    container := some "d", ip := some "10.0.0.7" }

theorem C1_witness :
    (Image.runningProp engDead sDead).1 = false ∧
    (Image.runningProp engDead sDead).2.1.container = none ∧
    (Image.runningProp engDead sDead).2.2 = true ∧
    (Image.runningProp engDead sDead).2.1.ip = sDead.ip ∧
    (Image.ipProp engDead (Image.runningProp engDead sDead).2.1).1 = none ∧
    (Image.runningProp engDead (Image.runningProp engDead sDead).2.1).1 = false ∧
    (Image.stop engAlive sAlive).1 = .ok (some "d") ∧
    (Image.stop engAlive sAlive).2.1.container = none ∧
    (Image.stop engAlive sAlive).2.1.ip = sAlive.ip :=
  C1_amended engDead engAlive sDead sAlive "c" "d" rfl rfl rfl rfl rfl

/-! ### Claim C3 -/

/-- Engine whose build exits non-zero but whose container start succeeds. -/
def engBuildFail : Engine :=
  { inspectRunning := fun _ => false, inspectIP := fun _ => "",
    buildExit := 1, runStart := fun _ => .ok "cid", stopOk := true,
    pullExit := 0, tagExit := 0, pushExit := 0, saveExit := 0,
    tmpName := "tmp", inspectPorts := .ok [] }

/-- A not-yet-built handle with nothing running. -/
def sUnbuilt : ImageState :=
  { name := "img", basename := "img", built := false,
    build_path := some "./chal", container := none, ip := none }

/-- C3 counterexample: with the build failing, `run` does not return absent —
it goes on to start a container and returns its id, `built` still unset. -/
theorem C3_counterexample :
    (Image.run engBuildFail [] sUnbuilt).1 = .ok (some "cid") ∧
    (Image.run engBuildFail [] sUnbuilt).2.1.container = some "cid" ∧
    (Image.run engBuildFail [] sUnbuilt).2.1.built = false :=
  ⟨rfl, rfl, rfl⟩

/-- Engine whose build and container start both fail. -/
def engStartFail : Engine :=
  { inspectRunning := fun _ => false, inspectIP := fun _ => "",
    buildExit := 1, runStart := fun _ => .error (), stopOk := true,
    pullExit := 0, tagExit := 0, pushExit := 0, saveExit := 0,
    tmpName := "tmp", inspectPorts := .ok [] }

/-- C3 amended: when the handle is not built, nothing is running and the
build invocation exits non-zero, `run` ignores the failure (leaving `built`
unset) and still attempts to start a container: it returns the new id when
the start call succeeds (engine `eng`) and raises `CalledProcessError` when
the start call fails (engine `engF`) — in neither case does it return
absent. -/
theorem C3_amended (eng engF : Engine) (env envF : List (String × String))
    (s sF : ImageState) (cid : String)
    (hb : s.built = false) (hfail : eng.buildExit ≠ 0) (hc : s.container = none)
    (hstart : eng.runStart env = .ok cid)
    (hbF : sF.built = false) (hfailF : engF.buildExit ≠ 0)
    (hcF : sF.container = none) (hstartF : engF.runStart envF = .error ()) :
    Image.run eng env s = (.ok (some cid), { s with container := some cid }, false) ∧
    (Image.run eng env s).2.1.built = false ∧
    Image.run engF envF sF = (.error .calledProcessError, sF, false) ∧
    (Image.run engF envF sF).2.1.built = false := by
  have h1 : ensureBuilt eng s = s := by
    unfold ensureBuilt Image.build
    rw [if_neg (by rw [hb]; exact Bool.false_ne_true), if_pos hfail]
  have h2 : Image.runningProp eng s = (false, s, false) := by
    unfold Image.runningProp
    rw [hc]
  have h1F : ensureBuilt engF sF = sF := by
    unfold ensureBuilt Image.build
    rw [if_neg (by rw [hbF]; exact Bool.false_ne_true), if_pos hfailF]
  have h2F : Image.runningProp engF sF = (false, sF, false) := by
    unfold Image.runningProp
    rw [hcF]
  refine ⟨?_, ?_, ?_, ?_⟩
  · simp [Image.run, h1, h2, hstart]
  · simp [Image.run, h1, h2, hstart, hb]
  · simp [Image.run, h1F, h2F, hstartF]
  · simp [Image.run, h1F, h2F, hstartF, hbF]

theorem C3_witness :
    Image.run engBuildFail [] sUnbuilt =
      (.ok (some "cid"), { sUnbuilt with container := some "cid" }, false) ∧
    (Image.run engBuildFail [] sUnbuilt).2.1.built = false ∧
    Image.run engStartFail [] sUnbuilt =
      (.error .calledProcessError, sUnbuilt, false) ∧
    (Image.run engStartFail [] sUnbuilt).2.1.built = false :=
  C3_amended engBuildFail engStartFail [] [] sUnbuilt sUnbuilt "cid"
    rfl (by decide) rfl rfl rfl (by decide) rfl rfl

/-! ### Claim C5 -/

/-- Engine on which every fallible invocation fails. -/
def engFail : Engine :=
  { inspectRunning := fun _ => true, inspectIP := fun _ => "",
    buildExit := 1, runStart := fun _ => .error (), stopOk := false,
    pullExit := 1, tagExit := 1, pushExit := 1, saveExit := 1,
    tmpName := "tmp", inspectPorts := .error () }

/-- A running handle for the stop conjunct of C5. -/
def sRun5 : ImageState :=
  { name := "img", basename := "img", built := true, build_path := none,
    container := some "c", ip := none }

/-- An idle handle for the run conjunct of C5. -/
def sIdle5 : ImageState :=
  { name := "img", basename := "img", built := true, build_path := none,
    container := none, ip := none }

/-- C5 counterexample: `stop` is invoked through `check_call`, so an engine
failure of the stop invocation is raised as `CalledProcessError`, not
surfaced as an absent/false result — and the stop invocation is not one of
the per-container process-inspection calls the claim excepts. -/
theorem C5_counterexample :
    (Image.stop engFail sRun5).1 = .error PyError.calledProcessError ∧
    (Image.run engFail [] sIdle5).1 = .error PyError.calledProcessError :=
  ⟨rfl, rfl⟩

/-- C5 amended: `build`, `pull`, `push`, `export` and the exposed-port
inspection surface engine failure as an absent result without raising, but
the stop invocation made by `stop` and the container-start invocation made by `run` are checked
calls that raise `CalledProcessError` on a non-zero exit, in addition to the
per-container process-inspection calls. -/
theorem C5_amended (eng : Engine) (sA sB : ImageState) (loc c : String)
    (hbuild : eng.buildExit ≠ 0) (hpull : eng.pullExit ≠ 0)
    (htag : eng.tagExit ≠ 0) (hsave : eng.saveExit ≠ 0)
    (hports : eng.inspectPorts = .error ())
    (hAc : sA.container = some c) (hAr : eng.inspectRunning c = true)
    (hstop : eng.stopOk = false)
    (hBc : sB.container = none) (hstart : eng.runStart [] = .error ()) :
    (Image.build eng sA).1 = none ∧
    Image.pull eng sA = none ∧
    (Image.push eng loc sA).1 = none ∧
    (Image.exportImage eng sA).1 = none ∧
    (Image.getExposedPortStrings eng sA).1 = none ∧
    (Image.stop eng sA).1 = .error .calledProcessError ∧
    (Image.run eng [] sB).1 = .error .calledProcessError := by
  have hA := runningProp_alive eng sA c hAc hAr
  have hB : Image.runningProp eng (ensureBuilt eng sB) =
      (false, ensureBuilt eng sB, false) := by
    unfold Image.runningProp
    rw [ensureBuilt_container, hBc]
  refine ⟨?_, ?_, ?_, ?_, ?_, ?_, ?_⟩
  · simp [Image.build, hbuild]
  · simp [Image.pull, hpull]
  · simp [Image.push, htag]
  · simp [Image.exportImage, hsave]
  · simp [Image.getExposedPortStrings, hports]
  · unfold Image.stop
    rw [hA]
    simp [hstop]
  · simp [Image.run, hB, hstart]

theorem C5_witness :
    (Image.build engFail sRun5).1 = none ∧
    Image.pull engFail sRun5 = none ∧
    (Image.push engFail "reg/img" sRun5).1 = none ∧
    (Image.exportImage engFail sRun5).1 = none ∧
    (Image.getExposedPortStrings engFail sRun5).1 = none ∧
    (Image.stop engFail sRun5).1 = .error .calledProcessError ∧
    (Image.run engFail [] sIdle5).1 = .error .calledProcessError :=
  C5_amended engFail sRun5 sIdle5 "reg/img" "c" (by decide) (by decide)
    (by decide) (by decide) rfl rfl rfl rfl rfl rfl

/-! ### Claim C8 -/

/-- C8: while the engine still reports the recorded container running, `run`
returns that same id, leaves it recorded, and a second `run` without an
intervening `stop` returns the identical id again without recording a new
container. -/
theorem C8_run_idempotent (eng : Engine) (env env1 : List (String × String))
    (s : ImageState) (c : String) (hc : s.container = some c)
    (hr : eng.inspectRunning c = true) :
    (Image.run eng env s).1 = .ok (some c) ∧
    (Image.run eng env s).2.1.container = some c ∧
    (Image.run eng env1 ((Image.run eng env s).2.1)).1 = .ok (some c) ∧
    (Image.run eng env1 ((Image.run eng env s).2.1)).2.1.container = some c := by
  have hc1 : (ensureBuilt eng s).container = some c := by
    rw [ensureBuilt_container, hc]
  have h1 := runningProp_alive eng (ensureBuilt eng s) c hc1 hr
  have hfst : Image.run eng env s = (.ok (some c), ensureBuilt eng s, false) := by
    simp [Image.run, h1, hc1]
  have hc2 : (ensureBuilt eng (ensureBuilt eng s)).container = some c := by
    rw [ensureBuilt_idem, hc1]
  have h2 := runningProp_alive eng (ensureBuilt eng (ensureBuilt eng s)) c hc2 hr
  have hsnd : Image.run eng env1 (ensureBuilt eng s) =
      (.ok (some c), ensureBuilt eng (ensureBuilt eng s), false) := by
    simp [Image.run, h2, hc2]
  rw [hfst]
  refine ⟨rfl, hc1, ?_, ?_⟩
  · rw [hsnd]
  · rw [hsnd]
    exact hc2

theorem C8_witness :
    (Image.run engAlive [] sAlive).1 = .ok (some "d") ∧
    (Image.run engAlive [] sAlive).2.1.container = some "d" ∧
    (Image.run engAlive [] ((Image.run engAlive [] sAlive).2.1)).1 =
      .ok (some "d") ∧
    (Image.run engAlive [] ((Image.run engAlive [] sAlive).2.1)).2.1.container =
      some "d" :=
  C8_run_idempotent engAlive [] [] sAlive "d" rfl rfl

/-! ### Claim C4 -/

/-- Engine for a running container whose image declares no exposed ports:
docker inspect renders `.Config.ExposedPorts` as null, a falsy object. -/
def engNoPorts : Engine :=
  { inspectRunning := fun _ => true, inspectIP := fun _ => "172.17.0.2",
    buildExit := 0, runStart := fun _ => .ok "x", stopOk := true,
    pullExit := 0, tagExit := 0, pushExit := 0, saveExit := 0,
    tmpName := "tmp", inspectPorts := .ok [] }

/-- A built, running handle for C4. -/
def sNoPorts : ImageState :=
  { name := "img", basename := "img", built := true, build_path := none,
    container := some "c", ip := none }

/-- C4: on a running handle whose image declares no exposed ports,
`ports_by_protocol` returns `None` and `wait_for_exposed_ports` then
iterates over `None`, raising a `TypeError` instead of returning true
vacuously as specified. -/
theorem C4_no_ports_crash :
    (Image.ports_by_protocol engNoPorts "tcp" sNoPorts).1 = none ∧
    (Image.wait_for_exposed_ports engNoPorts (fun _ _ _ => true) 30 sNoPorts).1 =
      .error (PyError.typeError "NoneType object is not iterable") :=
  ⟨rfl, rfl⟩

/-! ### Claim C6 -/

theorem ports_by_protocol_state (eng : Engine) (proto : String) (s : ImageState) :
    (Image.ports_by_protocol eng proto s).2 = ensureBuilt eng s := by
  unfold Image.ports_by_protocol Image.getExposedPortStrings
  cases h : eng.inspectPorts with
  | error e => rfl
  | ok data =>
    by_cases hd : data = []
    · simp [hd]
    · simp [hd]

/-- C6: on a non-running handle `wait_for_exposed_ports` returns false with
no connection attempt (the outcome does not depend on the network oracle at
all); on a running handle whose declared TCP port list is non-empty it
returns true exactly when every port, polled in order against the deadline,
accepts a connection — returning false exactly when some port never does —
and a false result is always accompanied by the warning. -/
theorem C6_wait_ready (eng engN : Engine)
    (net netN netN1 : String → Nat → Nat → Bool)
    (timeout timeoutN : Nat) (s sN : ImageState) (c : String) (ports : List Nat)
    (hnr : (Image.runningProp engN sN).1 = false)
    (hc : s.container = some c) (hr : eng.inspectRunning c = true)
    (hp : (Image.ports_by_protocol eng "tcp" s).1 = some ports)
    (hne : ports ≠ []) :
    (Image.wait_for_exposed_ports engN netN timeoutN sN).1 = .ok false ∧
    Image.wait_for_exposed_ports engN netN timeoutN sN =
      Image.wait_for_exposed_ports engN netN1 timeoutN sN ∧
    ((Image.wait_for_exposed_ports eng net timeout s).1 = .ok true ↔
      PortsReachable (net (s.ip.getD (eng.inspectIP c))) timeout ports 0) ∧
    ((Image.wait_for_exposed_ports eng net timeout s).1 = .ok false ↔
      ¬PortsReachable (net (s.ip.getD (eng.inspectIP c))) timeout ports 0) ∧
    ((Image.wait_for_exposed_ports eng net timeout s).1 = .ok false →
      (Image.wait_for_exposed_ports eng net timeout s).2.2 = true) := by
  have hrun := runningProp_alive eng s c hc hr
  have haddr : (Image.ports_by_protocol eng "tcp" s).2.ip.getD
      (eng.inspectIP ((Image.ports_by_protocol eng "tcp" s).2.container.getD ""))
      = s.ip.getD (eng.inspectIP c) := by
    rw [ports_by_protocol_state, ensureBuilt_ip, ensureBuilt_container, hc,
      Option.getD_some]
  have hmain : ∀ netX : String → Nat → Nat → Bool,
      Image.wait_for_exposed_ports eng netX timeout s =
        (.ok (waitPorts (netX (s.ip.getD (eng.inspectIP c))) timeout ports 0).1,
          if ports ≠ [] ∧ 0 < timeout then
            { (Image.ports_by_protocol eng "tcp" s).2 with
              ip := some (s.ip.getD (eng.inspectIP c)) }
          else (Image.ports_by_protocol eng "tcp" s).2,
          (waitPorts (netX (s.ip.getD (eng.inspectIP c))) timeout ports 0).2) := by
    intro netX
    simp [Image.wait_for_exposed_ports, hrun, hp, haddr]
  have hnonrun : ∀ netX : String → Nat → Nat → Bool,
      Image.wait_for_exposed_ports engN netX timeoutN sN =
        (.ok false, (Image.runningProp engN sN).2.1,
          (Image.runningProp engN sN).2.2) := by
    intro netX
    unfold Image.wait_for_exposed_ports
    rw [if_pos hnr]
  refine ⟨?_, ?_, ?_, ?_, ?_⟩
  · rw [hnonrun netN]
  · rw [hnonrun netN, hnonrun netN1]
  · rw [hmain net]
    simp only [Except.ok.injEq]
    exact waitPorts_true_iff (net (s.ip.getD (eng.inspectIP c))) timeout ports 0
  · rw [hmain net]
    simp only [Except.ok.injEq]
    constructor
    · intro h hreach
      rw [(waitPorts_true_iff _ timeout ports 0).mpr hreach] at h
      exact Bool.noConfusion h
    · intro h
      cases hres : (waitPorts (net (s.ip.getD (eng.inspectIP c))) timeout ports 0).1 with
      | false => rfl
      | true => exact absurd ((waitPorts_true_iff _ timeout ports 0).mp hres) h
  · rw [hmain net]
    intro h
    simp only [Except.ok.injEq] at h
    show (waitPorts (net (s.ip.getD (eng.inspectIP c))) timeout ports 0).2 = true
    rw [waitPorts_warn, h]
    rfl

/-- Engine for the C6 witness: one exposed TCP port. -/
def engW6 : Engine :=
  { inspectRunning := fun _ => true, inspectIP := fun _ => "172.17.0.3",
    buildExit := 0, runStart := fun _ => .ok "x", stopOk := true,
    pullExit := 0, tagExit := 0, pushExit := 0, saveExit := 0,
    tmpName := "tmp", inspectPorts := .ok [(8080, "tcp")] }

/-- Running handle for the C6 witness. -/
def sW6 : ImageState :=
  { name := "img", basename := "img", built := true, build_path := none,
    container := some "c", ip := none }

/-- Idle handle for the non-running half of the C6 witness. -/
def sIdle6 : ImageState :=
  { name := "img", basename := "img", built := true, build_path := none,
    container := none, ip := none }

/-- Network oracle on which every connection attempt succeeds. -/
def netYes : String → Nat → Nat → Bool := fun _ _ _ => true

/-- Network oracle on which every connection attempt fails. -/
def netNo : String → Nat → Nat → Bool := fun _ _ _ => false

theorem C6_witness :
    (Image.wait_for_exposed_ports engW6 netNo 5 sIdle6).1 = .ok false ∧
    Image.wait_for_exposed_ports engW6 netNo 5 sIdle6 =
      Image.wait_for_exposed_ports engW6 netYes 5 sIdle6 ∧
    ((Image.wait_for_exposed_ports engW6 netYes 5 sW6).1 = .ok true ↔
      PortsReachable (netYes (sW6.ip.getD (engW6.inspectIP "c"))) 5 [8080] 0) ∧
    ((Image.wait_for_exposed_ports engW6 netYes 5 sW6).1 = .ok false ↔
      ¬PortsReachable (netYes (sW6.ip.getD (engW6.inspectIP "c"))) 5 [8080] 0) ∧
    ((Image.wait_for_exposed_ports engW6 netYes 5 sW6).1 = .ok false →
      (Image.wait_for_exposed_ports engW6 netYes 5 sW6).2.2 = true) :=
  C6_wait_ready engW6 engW6 netYes netNo netYes 5 5 sW6 sIdle6 "c" [8080]
    rfl rfl rfl rfl (by decide)

end Ctfcli
